import Mathlib

set_option maxHeartbeats 1000000

/-!
# Verification of the Qubes GUI protocol core (qubes-gui / qubes-gui-connection)

Shallow embedding of the wire-type length validator (`qubes-gui/src/lib.rs`)
and of the framing state machine, send buffer and connection façade
(`qubes-gui-connection/src/lib.rs`).  Machine integers (`u32`) are modelled
as `Nat`; all the arithmetic performed by the code stays far below `2^32`,
and subtractions are guarded exactly as in the source, so no wrap-around is
observable.  Byte strings are `List Nat` (each element a byte value).
-/

namespace QubesGui

/-! ## Constants (qubes-gui/src/lib.rs) -/

/-- Model of `MAX_CLIPBOARD_SIZE`: arbitrary maximum size of a clipboard message. -/
def MAX_CLIPBOARD_SIZE : Nat := 65000

/-- Model of `MAX_WINDOW_HEIGHT` -/
def MAX_WINDOW_HEIGHT : Nat := 6144

/-- Model of `MAX_WINDOW_WIDTH` -/
def MAX_WINDOW_WIDTH : Nat := 16384

/-- Model of `DUMMY_DRV_FB_BPP`: bits per pixel of the dummy framebuffer driver. -/
def DUMMY_DRV_FB_BPP : Nat := 32

/-- Model of `MAX_WINDOW_MEM = MAX_WINDOW_WIDTH * MAX_WINDOW_HEIGHT * (DUMMY_DRV_FB_BPP / 8)` -/
def MAX_WINDOW_MEM : Nat := MAX_WINDOW_WIDTH * MAX_WINDOW_HEIGHT * (DUMMY_DRV_FB_BPP / 8)

/-- Model of `XC_PAGE_SIZE = 1 << 12` -/
def XC_PAGE_SIZE : Nat := 4096

/-- Model of `MAX_MFN_COUNT = (MAX_WINDOW_MEM + XC_PAGE_SIZE - 1) >> 12` -/
def MAX_MFN_COUNT : Nat := (MAX_WINDOW_MEM + XC_PAGE_SIZE - 1) / 4096

/-- Model of `MAX_GRANT_REFS_COUNT = (MAX_WINDOW_MEM + XC_PAGE_SIZE - 1) >> 12` -/
def MAX_GRANT_REFS_COUNT : Nat := (MAX_WINDOW_MEM + XC_PAGE_SIZE - 1) / 4096

/-- Model of `PROTOCOL_VERSION_MAJOR = 1` -/
def PROTOCOL_VERSION_MAJOR : Nat := 1

/-- Model of `PROTOCOL_VERSION_MINOR = 7` -/
def PROTOCOL_VERSION_MINOR : Nat := 7

/-- Model of `PROTOCOL_VERSION = PROTOCOL_VERSION_MAJOR << 16 | PROTOCOL_VERSION_MINOR` -/
def PROTOCOL_VERSION : Nat := PROTOCOL_VERSION_MAJOR * 65536 + PROTOCOL_VERSION_MINOR

/-! ## Wire structures

`WindowID` is a plain `u32` on the wire (`Option<NonZeroU32>` with 0 = None);
it is modelled as the raw `Nat` value. -/

/-- Model of `UntrustedHeader`: the exact 12-byte triple transmitted on the wire. -/
structure UntrustedHeader where
  ty : Nat
  window : Nat
  untrusted_len : Nat
deriving DecidableEq, Repr

/-- Model of `BadLengthError`: a recognised message kind arrived with a disallowed length. -/
structure BadLengthError where
  ty : Nat
  untrusted_len : Nat
deriving DecidableEq, Repr

/-- Model of `Header`: a header that has been validated (newtype over `UntrustedHeader`). -/
structure Header where
  inner : UntrustedHeader
deriving DecidableEq, Repr

/-- Model of `Header::len` -/
def Header.len (h : Header) : Nat := h.inner.untrusted_len

/-- Model of `Header::ty` -/
def Header.ty (h : Header) : Nat := h.inner.ty

/-- Helper mirroring the outer `if match { ... } { Ok(Some(..)) } else { Err(..) }`
shape of `UntrustedHeader::validate_length`: a recognised kind whose length
check evaluated to `b` produces `Ok(Some)` or `Err(BadLengthError)`. -/
def passLen (h : UntrustedHeader) (b : Bool) : Except BadLengthError (Option Header) :=
  if b then .ok (some ⟨h⟩) else .error ⟨h.ty, h.untrusted_len⟩

/-- Model of `UntrustedHeader::validate_length` (qubes-gui/src/lib.rs lines 732-775).
Arms appear in source order; the two guarded arm pairs for `MSG_MFNDUMP`
and `MSG_WINDOW_DUMP` are combined into single boolean conditions (the
subtraction `untrusted_len - 16` is only reached under the guard
`16 ≤ untrusted_len`, exactly as in the source).  Structure sizes
(`size_of` in Rust): Button 20, Keypress 20, Motion 16, Crossing 28,
Focus 12, Create 24, MapInfo 8, Configure 20, ShmImage 16, WMName 128,
KeymapNotify 32, WindowHints 36, WindowFlags 8, WMClass 128,
WindowDumpHeader 16, Cursor 4. -/
def validate_length (h : UntrustedHeader) : Except BadLengthError (Option Header) :=
  let u := h.untrusted_len
  if h.ty = 140 then passLen h (decide (u ≤ MAX_CLIPBOARD_SIZE))
  else if h.ty = 125 then passLen h (decide (u = 20))
  else if h.ty = 124 then passLen h (decide (u = 20))
  else if h.ty = 126 then passLen h (decide (u = 16))
  else if h.ty = 127 then passLen h (decide (u = 28))
  else if h.ty = 128 then passLen h (decide (u = 12))
  else if h.ty = 130 then passLen h (decide (u = 24))
  else if h.ty = 131 then passLen h (decide (u = 0))
  else if h.ty = 132 then passLen h (decide (u = 8))
  else if h.ty = 133 then passLen h (decide (u = 0))
  else if h.ty = 134 then passLen h (decide (u = 20))
  else if h.ty = 135 then passLen h (decide (u % 4 = 0 ∧ u / 4 ≤ MAX_MFN_COUNT))
  else if h.ty = 136 then passLen h (decide (u = 16))
  else if h.ty = 137 then passLen h (decide (u = 0))
  else if h.ty = 139 then passLen h (decide (u = 0))
  else if h.ty = 141 then passLen h (decide (u = 128))
  else if h.ty = 142 then passLen h (decide (u = 32))
  else if h.ty = 143 then passLen h (decide (u = 0))
  else if h.ty = 144 then passLen h (decide (u = 36))
  else if h.ty = 145 then passLen h (decide (u = 8))
  else if h.ty = 146 then passLen h (decide (u = 128))
  else if h.ty = 147 then
    passLen h (decide (16 ≤ u ∧ (u - 16) % 4 = 0 ∧ (u - 16) / 4 ≤ MAX_GRANT_REFS_COUNT))
  else if h.ty = 148 then passLen h (decide (u = 4))
  else if h.ty = 149 then passLen h (decide (u = 0))
  else if h.ty = 138 then passLen h false
  else .ok none

/-- The message tags that have an arm in `validate_length` (everything the
code recognises, including the always-invalid `MSG_EXECUTE = 138`;
`MSG_RESIZE = 129` has no arm and falls to the default `Ok(None)`). -/
def knownTags : List Nat :=
  [140, 125, 124, 126, 127, 128, 130, 131, 132, 133, 134, 135, 136, 137, 139,
   141, 142, 143, 144, 145, 146, 147, 148, 149, 138]

/-- A tag is a known message kind iff `validate_length` has an arm for it. -/
def isKnownKind (ty : Nat) : Bool := decide (ty ∈ knownTags)

/-- The per-kind length rule exactly as the code implements it (the boolean
computed by the corresponding `validate_length` arm; `false` for the
always-invalid `MSG_EXECUTE` and for unrecognised tags). -/
def msgLenOK (ty u : Nat) : Bool :=
  if ty = 140 then decide (u ≤ MAX_CLIPBOARD_SIZE)
  else if ty = 125 then decide (u = 20)
  else if ty = 124 then decide (u = 20)
  else if ty = 126 then decide (u = 16)
  else if ty = 127 then decide (u = 28)
  else if ty = 128 then decide (u = 12)
  else if ty = 130 then decide (u = 24)
  else if ty = 131 then decide (u = 0)
  else if ty = 132 then decide (u = 8)
  else if ty = 133 then decide (u = 0)
  else if ty = 134 then decide (u = 20)
  else if ty = 135 then decide (u % 4 = 0 ∧ u / 4 ≤ MAX_MFN_COUNT)
  else if ty = 136 then decide (u = 16)
  else if ty = 137 then decide (u = 0)
  else if ty = 139 then decide (u = 0)
  else if ty = 141 then decide (u = 128)
  else if ty = 142 then decide (u = 32)
  else if ty = 143 then decide (u = 0)
  else if ty = 144 then decide (u = 36)
  else if ty = 145 then decide (u = 8)
  else if ty = 146 then decide (u = 128)
  else if ty = 147 then
    decide (16 ≤ u ∧ (u - 16) % 4 = 0 ∧ (u - 16) / 4 ≤ MAX_GRANT_REFS_COUNT)
  else if ty = 148 then decide (u = 4)
  else if ty = 149 then decide (u = 0)
  else false

/-- Modelled from the spec: the per-kind length rule exactly as the
specification's §6 table states it (which is what claim C1 calls "that
kind's rule from the per-kind table").  It differs from the code on three
rows: MOTION (126) "fixed 20", CROSSING (127) "fixed 36", CREATE (130)
"fixed 28".  RESIZE (129) has no rule (treated as unknown per the spec's
open question); EXECUTE (138) is "always invalid". -/
def spec_msgLenOK (ty u : Nat) : Bool :=
  if ty = 140 then decide (u ≤ 65000)
  else if ty = 125 then decide (u = 20)
  else if ty = 124 then decide (u = 20)
  else if ty = 126 then decide (u = 20)
  else if ty = 127 then decide (u = 36)
  else if ty = 128 then decide (u = 12)
  else if ty = 130 then decide (u = 28)
  else if ty = 131 then decide (u = 0)
  else if ty = 132 then decide (u = 8)
  else if ty = 133 then decide (u = 0)
  else if ty = 134 then decide (u = 20)
  else if ty = 135 then decide (u % 4 = 0 ∧ u ≤ MAX_MFN_COUNT * 4)
  else if ty = 136 then decide (u = 16)
  else if ty = 137 then decide (u = 0)
  else if ty = 139 then decide (u = 0)
  else if ty = 141 then decide (u = 128)
  else if ty = 142 then decide (u = 32)
  else if ty = 143 then decide (u = 0)
  else if ty = 144 then decide (u = 36)
  else if ty = 145 then decide (u = 8)
  else if ty = 146 then decide (u = 128)
  else if ty = 147 then
    decide (16 ≤ u ∧ (u - 16) % 4 = 0 ∧ (u - 16) / 4 ≤ MAX_GRANT_REFS_COUNT)
  else if ty = 148 then decide (u = 4)
  else if ty = 149 then decide (u = 0)
  else false

/-- Model of `validate_length` in terms of the kind table and the per-kind rule:
a recognised kind yields `Ok(Some(Header))` or `Err(BadLengthError)`
according to the rule, an unrecognised kind yields `Ok(None)`. -/
theorem validate_length_eq (h : UntrustedHeader) :
    validate_length h =
      if isKnownKind h.ty then
        (if msgLenOK h.ty h.untrusted_len then .ok (some ⟨h⟩)
         else .error ⟨h.ty, h.untrusted_len⟩)
      else .ok none := by
  by_cases h140 : h.ty = 140
  · simp_all [validate_length, msgLenOK, isKnownKind, knownTags, passLen]
  by_cases h125 : h.ty = 125
  · simp_all [validate_length, msgLenOK, isKnownKind, knownTags, passLen]
  by_cases h124 : h.ty = 124
  · simp_all [validate_length, msgLenOK, isKnownKind, knownTags, passLen]
  by_cases h126 : h.ty = 126
  · simp_all [validate_length, msgLenOK, isKnownKind, knownTags, passLen]
  by_cases h127 : h.ty = 127
  · simp_all [validate_length, msgLenOK, isKnownKind, knownTags, passLen]
  by_cases h128 : h.ty = 128
  · simp_all [validate_length, msgLenOK, isKnownKind, knownTags, passLen]
  by_cases h130 : h.ty = 130
  · simp_all [validate_length, msgLenOK, isKnownKind, knownTags, passLen]
  by_cases h131 : h.ty = 131
  · simp_all [validate_length, msgLenOK, isKnownKind, knownTags, passLen]
  by_cases h132 : h.ty = 132
  · simp_all [validate_length, msgLenOK, isKnownKind, knownTags, passLen]
  by_cases h133 : h.ty = 133
  · simp_all [validate_length, msgLenOK, isKnownKind, knownTags, passLen]
  by_cases h134 : h.ty = 134
  · simp_all [validate_length, msgLenOK, isKnownKind, knownTags, passLen]
  by_cases h135 : h.ty = 135
  · simp_all [validate_length, msgLenOK, isKnownKind, knownTags, passLen]
  by_cases h136 : h.ty = 136
  · simp_all [validate_length, msgLenOK, isKnownKind, knownTags, passLen]
  by_cases h137 : h.ty = 137
  · simp_all [validate_length, msgLenOK, isKnownKind, knownTags, passLen]
  by_cases h139 : h.ty = 139
  · simp_all [validate_length, msgLenOK, isKnownKind, knownTags, passLen]
  by_cases h141 : h.ty = 141
  · simp_all [validate_length, msgLenOK, isKnownKind, knownTags, passLen]
  by_cases h142 : h.ty = 142
  · simp_all [validate_length, msgLenOK, isKnownKind, knownTags, passLen]
  by_cases h143 : h.ty = 143
  · simp_all [validate_length, msgLenOK, isKnownKind, knownTags, passLen]
  by_cases h144 : h.ty = 144
  · simp_all [validate_length, msgLenOK, isKnownKind, knownTags, passLen]
  by_cases h145 : h.ty = 145
  · simp_all [validate_length, msgLenOK, isKnownKind, knownTags, passLen]
  by_cases h146 : h.ty = 146
  · simp_all [validate_length, msgLenOK, isKnownKind, knownTags, passLen]
  by_cases h147 : h.ty = 147
  · simp_all [validate_length, msgLenOK, isKnownKind, knownTags, passLen]
  by_cases h148 : h.ty = 148
  · simp_all [validate_length, msgLenOK, isKnownKind, knownTags, passLen]
  by_cases h149 : h.ty = 149
  · simp_all [validate_length, msgLenOK, isKnownKind, knownTags, passLen]
  by_cases h138 : h.ty = 138
  · simp_all [validate_length, msgLenOK, isKnownKind, knownTags, passLen]
  simp_all [validate_length, msgLenOK, isKnownKind, knownTags, passLen]

/-- C1 (amended): For every untrusted header, `validate_length` returns
exactly one of three results: `Ok(Some(validated header))` if the type is a
known kind and `untrusted_len` satisfies that kind's rule as implemented
(in particular, for CLIPBOARD_DATA (140) iff `untrusted_len ≤ 65000`, and
for WINDOW_DUMP (147) iff `untrusted_len ≥ 16` and `(untrusted_len - 16)`
is a multiple of 4 and `(untrusted_len - 16)/4 ≤ MAX_GRANT_REFS_COUNT =
98304`); `Err(BadLengthError)` carrying the type and `untrusted_len` if the
type is a known kind but the length violates the rule; and `Ok(None)` if
the type is not recognised.  Amendment forced by the counterexample: the
fixed sizes for MOTION (126), CROSSING (127) and CREATE (130) are 16, 28
and 24 bytes (the sizes of the `Motion`, `Crossing` and `Create` structs),
not the 20, 36 and 28 stated in the specification's table. -/
theorem validate_length_trichotomy (ty window u : Nat) :
    (validate_length ⟨ty, window, u⟩ = .ok none ↔ isKnownKind ty = false) ∧
    (isKnownKind ty = true →
      (validate_length ⟨ty, window, u⟩ = .ok (some ⟨⟨ty, window, u⟩⟩) ↔ msgLenOK ty u = true)) ∧
    (isKnownKind ty = true → msgLenOK ty u = false →
      validate_length ⟨ty, window, u⟩ = .error ⟨ty, u⟩) ∧
    msgLenOK 140 u = decide (u ≤ 65000) ∧
    msgLenOK 147 u = decide (16 ≤ u ∧ (u - 16) % 4 = 0 ∧ (u - 16) / 4 ≤ 98304) ∧
    msgLenOK 126 u = decide (u = 16) ∧
    msgLenOK 127 u = decide (u = 28) ∧
    msgLenOK 130 u = decide (u = 24) := by
  refine ⟨?_, ?_, ?_, rfl, rfl, rfl, rfl, rfl⟩ <;>
    rw [validate_length_eq] <;>
    cases hk : isKnownKind ty <;> cases hr : msgLenOK ty u <;> simp [hk, hr]

/-- C1 (counterexample): The claim as stated fails on the code: the
specification's per-kind table gives MOTION (tag 126) the rule "fixed 20",
so the claim requires a MOTION header with `untrusted_len = 20` to produce
`Ok(Some(..))`; the code rejects it with `BadLength` (the `Motion` struct
is 16 bytes, not 20). -/
theorem validate_length_spec_table_counterexample :
    spec_msgLenOK 126 20 = true ∧
    validate_length ⟨126, 0, 20⟩ = .error ⟨126, 20⟩ := ⟨rfl, rfl⟩

/-- C1 (witness): The amended trichotomy applied at a concrete input:
a CLIPBOARD_DATA header of length exactly 65000 is accepted. -/
theorem validate_length_trichotomy_witness :
    validate_length ⟨140, 0, 65000⟩ = .ok (some ⟨⟨140, 0, 65000⟩⟩) :=
  ((validate_length_trichotomy 140 0 65000).2.1 rfl).mpr rfl

/-! ## Byte-level wire images

Every wire struct is cast to/from its little-endian byte image with no
padding (`qubes-castable`).  `toLE4` is the 4-byte image of a `u32`,
`fromLE4` its inverse on a byte list. -/

/-- Little-endian 4-byte image of a `u32` value. -/
def toLE4 (n : Nat) : List Nat :=
  [n % 256, n / 256 % 256, n / 65536 % 256, n / 16777216 % 256]

/-- Read a little-endian `u32` from the first four bytes of a list
(missing bytes read as 0; every use in the machine is guarded by a
`data_ready` check, as in the source). -/
def fromLE4 (l : List Nat) : Nat :=
  l.getD 0 0 + 256 * (l.getD 1 0 + 256 * (l.getD 2 0 + 256 * l.getD 3 0))

/-- Model of `UntrustedHeader::as_bytes`: 12-byte wire image `(ty, window, untrusted_len)`. -/
def UntrustedHeader.as_bytes (h : UntrustedHeader) : List Nat :=
  toLE4 h.ty ++ toLE4 h.window ++ toLE4 h.untrusted_len

/-- Model of `WindowSize`: `(width, height)`. -/
structure WindowSize where
  width : Nat
  height : Nat
deriving DecidableEq, Repr

/-- Model of `XConf`: root window configuration `(size, depth, mem)`, 16 bytes. -/
structure XConf where
  size : WindowSize
  depth : Nat
  mem : Nat
deriving DecidableEq, Repr

/-- Model of `XConfVersion`: `(version, xconf)`, 20 bytes. -/
structure XConfVersion where
  version : Nat
  xconf : XConf
deriving DecidableEq, Repr

/-- Model of `XConf::as_bytes` (16 bytes). -/
def XConf.as_bytes (x : XConf) : List Nat :=
  toLE4 x.size.width ++ toLE4 x.size.height ++ toLE4 x.depth ++ toLE4 x.mem

/-- Model of `XConfVersion::as_bytes` (20 bytes). -/
def XConfVersion.as_bytes (x : XConfVersion) : List Nat :=
  toLE4 x.version ++ x.xconf.as_bytes

/-- Model of `recv_struct::<UntrustedHeader>`: decode 12 bytes. -/
def decodeUntrustedHeader (l : List Nat) : UntrustedHeader :=
  ⟨fromLE4 (l.take 4), fromLE4 ((l.drop 4).take 4), fromLE4 ((l.drop 8).take 4)⟩

/-- Model of `recv_struct::<XConfVersion>`: decode 20 bytes. -/
def decodeXConfVersion (l : List Nat) : XConfVersion :=
  ⟨fromLE4 (l.take 4),
   ⟨⟨fromLE4 ((l.drop 4).take 4), fromLE4 ((l.drop 8).take 4)⟩,
    fromLE4 ((l.drop 12).take 4), fromLE4 ((l.drop 16).take 4)⟩⟩

/-! ## Transport model

The vchan (§6's transport abstraction) is modelled as an in-memory state:
the readable byte stream (`input`, so `data_ready = input.length`), the
bytes delivered to the transport so far (`sent`, in delivery order), the
free write space (`buffer_space`) and the connection status.  `send`
appends to `sent` and consumes space; `recv`/`discard` consume from
`input`.  None of these primitives fail in the model (the code paths that
propagate `vchan::Error` are unreachable here). -/

/-- Model of `vchan::Status`. -/
inductive Status where
  | Waiting
  | Connected
  | Disconnected
deriving DecidableEq, Repr

/-- The mock transport state (the `VchanMock` trait's observable state). -/
structure MVchan where
  input : List Nat
  sent : List Nat
  space : Nat
  status : Status
deriving DecidableEq, Repr

/-- Model of `data_ready()`. -/
def MVchan.dataReady (v : MVchan) : Nat := v.input.length

/-- Model of `send(buf)`: deliver bytes to the transport. -/
def MVchan.send (v : MVchan) (bytes : List Nat) : MVchan :=
  {v with sent := v.sent ++ bytes, space := v.space - bytes.length}

/-- Model of `recv_into` / `recv_struct`: take `n` bytes from the read side. -/
def MVchan.recv (v : MVchan) (n : Nat) : List Nat × MVchan :=
  (v.input.take n, {v with input := v.input.drop n})

/-- Model of `discard(n)`: drop `n` bytes from the read side without copying. -/
def MVchan.discard (v : MVchan) (n : Nat) : MVchan :=
  {v with input := v.input.drop n}

/-! ## Framing state machine (qubes-gui-connection/src/lib.rs) -/

/-- Model of `Kind`: agent or daemon role. -/
inductive Kind where
  | Agent
  | Daemon
deriving DecidableEq, Repr

/-- Model of `ReadState`: protocol state of the read state machine. -/
inductive ReadState where
  | Connecting
  | Negotiating
  | ReadingHeader
  | ReadingBody (header : Header)
  | Discard (remaining : Nat)
  | Error
deriving DecidableEq, Repr

/-- Model of `RawMessageStream`: vchan, write queue, read state, read buffer,
reconnect flag, daemon configuration, peer domain, role. -/
structure RawMessageStream where
  vchan : MVchan
  queue : List Nat
  state : ReadState
  buffer : List Nat
  did_reconnect : Bool
  xconf : XConfVersion
  domid : Nat
  kind : Kind
deriving DecidableEq, Repr

/-- Protocol-level errors produced by the machine (the `io::Error` values
constructed in `read_message_internal`, by their distinguishing payload). -/
inductive ProtoError where
  | connectionRefused
  | alreadyInError
  | versionMismatch (theirMajor theirMinor ourMajor ourMinor : Nat)
  | unsupportedVersion (agentMajor agentMinor : Nat)
  | badLength (ty untrusted_len : Nat)
deriving DecidableEq, Repr

/-- Model of `RawMessageStream::flush_pending_writes`: write as much of the queued
data as possible without blocking.  The source loops over the `VecDeque`'s
two slices calling `write_slice`; the net effect of that loop is a single
FIFO transfer of `min(buffer_space, queue.len())` bytes from the front of
the queue to the transport.  Returns the updated stream and the number of
bytes written. -/
def flush_pending_writes (s : RawMessageStream) : RawMessageStream × Nat :=
  let k := min s.vchan.space s.queue.length
  ({s with vchan := s.vchan.send (s.queue.take k), queue := s.queue.drop k}, k)

/-- The states in which `RawMessageStream::write` actually enqueues
(everything except `Error`, `Connecting`, `Negotiating`). -/
def writableState : ReadState → Bool
  | .Error | .Connecting | .Negotiating => false
  | _ => true

/-- Model of `RawMessageStream::write` (production configuration): in `Error`,
`Connecting` or `Negotiating` state return `Ok(())` without doing anything;
otherwise flush the queue, then either append to the non-empty queue or
push directly via `write_slice` (which writes `min(buffer_space, len)`
bytes) and queue the remainder.  The model returns the updated stream;
the source's `Result` is always `Ok` here. -/
def write (s : RawMessageStream) (buf : List Nat) : RawMessageStream :=
  match s.state with
  | .Error | .Connecting | .Negotiating => s
  | _ =>
    let s1 := (flush_pending_writes s).1
    if s1.queue.isEmpty then
      let w := min s1.vchan.space buf.length
      {s1 with vchan := s1.vchan.send (buf.take w), queue := buf.drop w}
    else
      {s1 with queue := s1.queue ++ buf}

/-- One pass of the `loop` in `read_message_internal` either continues with
an updated stream or breaks with a result. -/
inductive LoopStep where
  | cont (s : RawMessageStream)
  | done (s : RawMessageStream) (r : Except ProtoError (Option Header))

/-- The `ReadState::Connecting` arm.  (The source asserts
`buffer_space >= 4` before sending the agent's 4-byte version; the model
sends unconditionally, as the assertion is about a transport guarantee.) -/
def stepConnecting (s : RawMessageStream) : LoopStep :=
  match s.vchan.status with
  | .Waiting => .done s (.ok none)
  | .Disconnected => .done s (.error .connectionRefused)
  | .Connected =>
    match s.kind with
    | .Daemon => .cont {s with state := .Negotiating}
    | .Agent =>
      .cont {s with vchan := s.vchan.send (toLE4 PROTOCOL_VERSION), state := .Negotiating}

/-- The `ReadState::Negotiating`, `Kind::Agent` arm: once 20 bytes are
available, read an `XConfVersion` and accept iff the daemon's major equals
the local major, its minor is at most the local minor, and its minor is at
least 4. -/
def stepNegotiatingAgent (s : RawMessageStream) : LoopStep :=
  if 20 ≤ s.vchan.dataReady then
    let r := s.vchan.recv 20
    let newXconf := decodeXConfVersion r.1
    let daemonMajor := newXconf.version / 65536
    let daemonMinor := newXconf.version % 65536
    if PROTOCOL_VERSION_MAJOR = daemonMajor ∧ daemonMinor ≤ PROTOCOL_VERSION_MINOR ∧
        4 ≤ daemonMinor then
      .cont {s with vchan := r.2, xconf := newXconf, state := .ReadingHeader,
                    did_reconnect := true}
    else
      .done {s with vchan := r.2}
        (.error (.versionMismatch daemonMajor daemonMinor
          PROTOCOL_VERSION_MAJOR PROTOCOL_VERSION_MINOR))
  else .done s (.ok none)

/-- The `ReadState::Negotiating`, `Kind::Daemon` arm: once 4 bytes are
available, read a `u32` version; accept iff its major equals the local
major.  On acceptance the source computes
`let version = version.min(PROTOCOL_VERSION_MINOR)` — note: the *full*
packed version is clamped against the minor 7 — stores it in
`xconf.version`, and sends the full `XConfVersion` if `version >= 4`,
else only the legacy `XConf` body. -/
def stepNegotiatingDaemon (s : RawMessageStream) : LoopStep :=
  if 4 ≤ s.vchan.dataReady then
    let r := s.vchan.recv 4
    let version := fromLE4 r.1
    let major := version / 65536
    let minor := version % 65536
    if major = PROTOCOL_VERSION_MAJOR then
      let negotiated := min version PROTOCOL_VERSION_MINOR
      let newXconf := {s.xconf with version := negotiated}
      let payload := if 4 ≤ negotiated then newXconf.as_bytes else newXconf.xconf.as_bytes
      .cont {s with vchan := r.2.send payload, xconf := newXconf, state := .ReadingHeader}
    else
      .done {s with vchan := r.2} (.error (.unsupportedVersion major minor))
  else .done s (.ok none)

/-- The `ReadState::ReadingHeader` arms: with fewer than 12 bytes return
pending; otherwise clear the read buffer, read the 12-byte untrusted
header and consult the validator. -/
def stepReadingHeader (s : RawMessageStream) : LoopStep :=
  if s.vchan.dataReady < 12 then .done s (.ok none)
  else
    let s1 := {s with buffer := []}
    let r := s1.vchan.recv 12
    let hdr := decodeUntrustedHeader r.1
    let s2 := {s1 with vchan := r.2}
    match validate_length hdr with
    | .error e => .done s2 (.error (.badLength e.ty e.untrusted_len))
    | .ok (some h) =>
      if h.len = 0 then .done {s2 with state := .ReadingHeader} (.ok (some h))
      else .cont {s2 with state := .ReadingBody h}
    | .ok none =>
      if hdr.untrusted_len = 0 then .cont {s2 with state := .ReadingHeader}
      else .cont {s2 with state := .Discard hdr.untrusted_len}

/-- The `ReadState::Discard(untrusted_len)` arm: discard
`min(data_ready, untrusted_len)` bytes; if `data_ready >= untrusted_len`
move to `ReadingHeader`, otherwise subtract and *continue the loop* (the
source has no `break` in this arm). -/
def stepDiscard (s : RawMessageStream) (n : Nat) : LoopStep :=
  let ready := s.vchan.dataReady
  let v := s.vchan.discard (min ready n)
  if n ≤ ready then .cont {s with vchan := v, state := .ReadingHeader}
  else .cont {s with vchan := v, state := .Discard (n - ready)}

/-- The `ReadState::ReadingBody { header }` arm: read
`min(header.len - buffer.len, data_ready)` bytes into the buffer; if the
body is complete return the header, else return pending. -/
def stepReadingBody (s : RawMessageStream) (h : Header) : LoopStep :=
  let ready := s.vchan.dataReady
  let toRead := h.len - s.buffer.length
  let r := s.vchan.recv (min toRead ready)
  let s1 := {s with vchan := r.2, buffer := s.buffer ++ r.1}
  if toRead ≤ ready then .done {s1 with state := .ReadingHeader} (.ok (some h))
  else .done s1 (.ok none)

/-- One iteration of the `loop` in `read_message_internal`, dispatching on
the current state. -/
def loopBody (s : RawMessageStream) : LoopStep :=
  match s.state with
  | .Connecting => stepConnecting s
  | .Error => .done s (.error .alreadyInError)
  | .Negotiating =>
    match s.kind with
    | .Agent => stepNegotiatingAgent s
    | .Daemon => stepNegotiatingDaemon s
  | .ReadingHeader => stepReadingHeader s
  | .Discard n => stepDiscard s n
  | .ReadingBody h => stepReadingBody s h

/-- The `loop` of `read_message_internal`, with explicit fuel: `none` means
the loop did not break within `fuel` iterations (in particular, a loop that
never breaks yields `none` for every fuel). -/
def runLoop : Nat → RawMessageStream → Option (RawMessageStream × Except ProtoError (Option Header))
  | 0, _ => none
  | fuel + 1, s =>
    match loopBody s with
    | .done s1 r => some (s1, r)
    | .cont s1 => runLoop fuel s1

/-- Model of `RawMessageStream::read_message_internal`: flush pending writes, then
run the loop. -/
def read_message_internal (fuel : Nat) (s : RawMessageStream) :
    Option (RawMessageStream × Except ProtoError (Option Header)) :=
  runLoop fuel (flush_pending_writes s).1

/-- Model of `RawMessageStream::read_message`: on an `Err` from the internal
function the stream is placed in the `Error` state. -/
def read_message (fuel : Nat) (s : RawMessageStream) :
    Option (RawMessageStream × Except ProtoError (Option Header)) :=
  match read_message_internal fuel s with
  | some (s1, .error e) => some ({s1 with state := .Error}, .error e)
  | other => other

/-- Model of `Connection::send_raw`: build the header from `(ty, window, len)`,
validate it (the source panics via `unwrap().expect(..)` if the kind is
unknown or the length invalid, and via `try_into().expect(..)` if the
length exceeds `u32`; the model returns `none` for those panics), then
enqueue header and body with two consecutive `write` calls. -/
def send_raw (s : RawMessageStream) (message : List Nat) (window ty : Nat) :
    Option RawMessageStream :=
  if message.length < 4294967296 then
    let header : UntrustedHeader := ⟨ty, window, message.length⟩
    match validate_length header with
    | .ok (some _) => some (write (write s header.as_bytes) message)
    | _ => none
  else none

/-- Model of `Buffer::take`: `std::mem::replace(&mut self.inner, vec![])` — move the
message body (the stream's read buffer) out by value and leave a freshly
constructed empty vector (`vec![]`, which has length 0 and, by `Vec`'s
guarantee, no allocation/capacity) in its place.  Modelled at the stream
level, since `Buffer.inner` mutably borrows the stream's `buffer`. -/
def Buffer.take (s : RawMessageStream) : List Nat × RawMessageStream :=
  (s.buffer, {s with buffer := []})

/-! ## Concrete fixtures -/

/-- A root-window configuration used by the concrete runs. -/
def xconf0 : XConf := ⟨⟨1024, 768⟩, 32, 3145728⟩

/-- A daemon-role stream in the `Negotiating` state whose transport holds
the agent's 4-byte version `0x00010002` (major 1, minor 2). -/
def daemonNeg : RawMessageStream :=
  { vchan := ⟨toLE4 65538, [], 100, .Connected⟩, queue := [], state := .Negotiating,
    buffer := [], did_reconnect := false, xconf := ⟨PROTOCOL_VERSION, xconf0⟩,
    domid := 0, kind := .Daemon }

/-- A daemon-role stream in `ReadingHeader` whose transport holds an
unknown header (type 999, length 40) followed by its 40 body bytes. -/
def daemonUnknown : RawMessageStream :=
  { vchan := ⟨(UntrustedHeader.mk 999 1 40).as_bytes ++ List.replicate 40 171, [], 100, .Connected⟩,
    queue := [], state := .ReadingHeader, buffer := [], did_reconnect := false,
    xconf := ⟨PROTOCOL_VERSION, xconf0⟩, domid := 0, kind := .Daemon }

/-- The same stream with the agent role. -/
def agentUnknown : RawMessageStream := {daemonUnknown with kind := .Agent}

/-- A stream in state `Discard 40` with only 10 bytes available on the
transport and nothing queued for writing. -/
def discardStuck : RawMessageStream :=
  { vchan := ⟨List.replicate 10 170, [], 0, .Connected⟩, queue := [], state := .Discard 40,
    buffer := [], did_reconnect := false, xconf := ⟨PROTOCOL_VERSION, xconf0⟩,
    domid := 0, kind := .Agent }

/-- An agent-role stream in `Negotiating` whose transport holds a full
`XConfVersion` with version `0x00010007`. -/
def agentNeg : RawMessageStream :=
  { vchan := ⟨(XConfVersion.mk 65543 xconf0).as_bytes, [], 100, .Connected⟩, queue := [],
    state := .Negotiating, buffer := [], did_reconnect := false,
    xconf := ⟨0, ⟨⟨0, 0⟩, 0, 0⟩⟩, domid := 0, kind := .Agent }

/-- Model of `RawMessageStream::daemon`: the stream as the daemon constructor builds
it — state `ReadingHeader` (not `Connecting` or `Negotiating`), empty
queue and buffer, `xconf = XConfVersion { version: PROTOCOL_VERSION, xconf }`,
kind `Daemon` — over a connected transport holding `input`. -/
def daemonInit (xc : XConf) (input : List Nat) (space : Nat) : RawMessageStream :=
  { vchan := ⟨input, [], space, .Connected⟩, queue := [], state := .ReadingHeader,
    buffer := [], did_reconnect := false, xconf := ⟨PROTOCOL_VERSION, xc⟩,
    domid := 0, kind := .Daemon }

/-- An agent-role stream in `ReadingHeader` whose transport holds a
zero-length DESTROY header for window 5. -/
def readyDestroy : RawMessageStream :=
  { vchan := ⟨(UntrustedHeader.mk 131 5 0).as_bytes, [], 50, .Connected⟩, queue := [],
    state := .ReadingHeader, buffer := [], did_reconnect := false,
    xconf := ⟨PROTOCOL_VERSION, xconf0⟩, domid := 0, kind := .Agent }

/-- A stream in the terminal `Error` state. -/
def errorStream : RawMessageStream :=
  { vchan := ⟨[], [], 10, .Connected⟩, queue := [4, 2], state := .Error, buffer := [7],
    did_reconnect := false, xconf := ⟨PROTOCOL_VERSION, xconf0⟩, domid := 0, kind := .Agent }

/-! ## C2: daemon-side version negotiation -/

/-- C2 (code_bug): A daemon-role stream in `Negotiating` receiving the
agent version `0x00010002` (major 1, minor 2): the claim (and spec) say the
negotiated minor is `min(2, 7) = 2`, that 2 is stored in the `XConfVersion`
version field, and that — since 2 < 4 — only the 16-byte legacy `XConf`
body is sent.  The code instead computes `version.min(PROTOCOL_VERSION_MINOR)`
on the *full packed version* (`min(65538, 7) = 7`), stores 7 (the major
bits are lost), and — since `7 ≥ 4` — always sends the full 20-byte
`XConfVersion`; the legacy branch is unreachable whenever the major check
passed. -/
theorem daemon_negotiation_code_bug :
    ((read_message 3 daemonNeg).map fun p =>
      (p.1.xconf.version, p.1.vchan.sent, p.1.state, p.2)) =
      some (7, (XConfVersion.mk 7 xconf0).as_bytes, ReadState.ReadingHeader,
        Except.ok none) ∧
    (XConfVersion.mk 7 xconf0).as_bytes.length = 20 ∧
    (XConf.as_bytes xconf0).length = 16 ∧
    min (65538 % 65536) 7 = 2 := ⟨rfl, rfl, rfl, rfl⟩

/-! ## C3: unknown-message handling is not role-dependent -/

/-- C3 (code_bug): An unknown header (type 999, length 40) is silently
discarded by **both** roles: the daemon-role stream, exactly like the
agent-role stream, consumes the header and the 40 body bytes, returns
pending with no error, and is back in `ReadingHeader` (not `Error`).  The
claim (and the protocol documentation in qubes-gui/src/lib.rs: "GUI
daemons MUST treat messages with an unknown type as a protocol error")
requires the daemon to fail instead; `validate_length` has no role
parameter and `read_message_internal` maps `Ok(None)` to discarding
regardless of `self.kind`. -/
theorem unknown_message_role_code_bug :
    ((read_message 4 daemonUnknown).map fun p => (p.1.state, p.1.vchan.input.length, p.2)) =
      some (ReadState.ReadingHeader, 0, Except.ok none) ∧
    ((read_message 4 agentUnknown).map fun p => (p.1.state, p.1.vchan.input.length, p.2)) =
      some (ReadState.ReadingHeader, 0, Except.ok none) := ⟨rfl, rfl⟩

/-! ## C4: the Discard state spins when starved -/

/-- In any state `Discard n` with fewer than `n` bytes available, the loop
of `read_message_internal` never breaks: it discards what is available,
subtracts, and then keeps iterating `Discard` with 0 bytes available,
discarding 0 bytes each time.  (`runLoop fuel s = none` for *every* fuel
is the fuel-indexed statement of non-termination.) -/
theorem runLoop_discard_starved :
    ∀ (fuel : Nat) (s : RawMessageStream) (n : Nat), s.state = .Discard n →
      s.vchan.input.length < n → runLoop fuel s = none := by
  intro fuel
  induction fuel with
  | zero => intro s n _ _; rfl
  | succ k ih =>
    intro s n hs hlt
    have hready : ¬ (n ≤ s.vchan.input.length) := by omega
    simp only [runLoop, loopBody, hs, stepDiscard, MVchan.dataReady, MVchan.discard,
      if_neg hready]
    apply ih _ (n - s.vchan.input.length) rfl
    simp only [List.length_drop]
    omega

/-- C4 (code_bug): From state `Discard 40` with 10 bytes available, a
single `read_message` call first discards the 10 available bytes and
subtracts (moving to `Discard 30`), exactly as the claim describes — but it
then never returns: the `Discard` arm of the loop has no `break`, so the
call loops forever discarding 0 bytes (`runLoop` yields `none` for every
fuel), instead of returning pending `Ok(None)` as the claim requires. -/
theorem discard_starvation_code_bug :
    stepDiscard discardStuck 40 = .cont {discardStuck with
      vchan := {discardStuck.vchan with input := []}, state := .Discard 30} ∧
    ∀ fuel, read_message fuel discardStuck = none := by
  constructor
  · rfl
  · intro fuel
    have h : runLoop fuel (flush_pending_writes discardStuck).1 = none :=
      runLoop_discard_starved fuel _ 40 rfl (by decide)
    simp [read_message, read_message_internal, h]

/-! ## C8: writes are dropped before the handshake completes -/

/-- C8 (confirmed): While the stream's state is `Connecting`,
`Negotiating` or `Error`, `RawMessageStream::write` returns `Ok(())`
without any observable effect: the entire stream — queue, transport
(`sent` bytes and all), and every other field — is unchanged. -/
theorem write_dropped_before_handshake (s : RawMessageStream) (buf : List Nat)
    (h : s.state = .Connecting ∨ s.state = .Negotiating ∨ s.state = .Error) :
    write s buf = s := by
  rcases h with h | h | h <;> simp [write, h]

/-- C8 (witness): A write of `[1, 2, 3]` on a stream in the `Error`
state leaves the stream untouched. -/
theorem write_dropped_before_handshake_witness :
    write errorStream [1, 2, 3] = errorStream :=
  write_dropped_before_handshake errorStream [1, 2, 3] (Or.inr (Or.inr rfl))

/-! ## C9: the daemon constructor skips the handshake -/

/-- C9 (code_bug): `RawMessageStream::daemon` constructs the stream
directly in `ReadingHeader`, so in the execution starting from the
constructor the daemon parses a 12-byte message header (here a DESTROY
header, returned as a message) without ever having read the agent's 4-byte
version or sent any reply: `sent` is still empty.  The daemon-side
`Negotiating` logic (and with it the whole handshake) is unreachable from
the constructor, contradicting the claim that the handshake is strictly
ordered before any header parse. -/
theorem daemon_handshake_skipped_code_bug :
    (daemonInit xconf0 (UntrustedHeader.mk 131 5 0).as_bytes 100).state =
      ReadState.ReadingHeader ∧
    ((read_message 2 (daemonInit xconf0 (UntrustedHeader.mk 131 5 0).as_bytes 100)).map
      fun p => (p.2, p.1.vchan.sent)) =
      some (Except.ok (some ⟨⟨131, 5, 0⟩⟩), ([] : List Nat)) := ⟨rfl, rfl⟩

/-! ## C10: Buffer::take -/

/-- C10 (confirmed): `Buffer::take` moves the message body (the
stream's read buffer) out exactly as it stands, and replaces the stream's
internal read buffer with a new empty vector (`vec![]`: length 0, and by
Rust's guarantee no retained allocation), leaving every other part of the
stream untouched — so the vector previously backing the message is not
reused by subsequent reads. -/
theorem buffer_take_spec (s : RawMessageStream) :
    (Buffer.take s).1 = s.buffer ∧
    (Buffer.take s).2.buffer = [] ∧
    (Buffer.take s).2.vchan = s.vchan ∧
    (Buffer.take s).2.queue = s.queue ∧
    (Buffer.take s).2.state = s.state ∧
    (Buffer.take s).2.did_reconnect = s.did_reconnect ∧
    (Buffer.take s).2.xconf = s.xconf ∧
    (Buffer.take s).2.kind = s.kind :=
  ⟨rfl, rfl, rfl, rfl, rfl, rfl, rfl, rfl⟩

/-! ## C7: a returned message leaves the machine in ReadingHeader -/

/-- The `Connecting` arm never returns a message. -/
theorem stepConnecting_no_message (s s1 : RawMessageStream) (hdr : Header) :
    stepConnecting s ≠ .done s1 (.ok (some hdr)) := by
  unfold stepConnecting
  cases s.vchan.status <;> cases s.kind <;> simp

/-- The agent `Negotiating` arm never returns a message. -/
theorem stepNegotiatingAgent_no_message (s s1 : RawMessageStream) (hdr : Header) :
    stepNegotiatingAgent s ≠ .done s1 (.ok (some hdr)) := by
  unfold stepNegotiatingAgent
  split
  · dsimp only
    split <;> simp
  · simp

/-- The daemon `Negotiating` arm never returns a message. -/
theorem stepNegotiatingDaemon_no_message (s s1 : RawMessageStream) (hdr : Header) :
    stepNegotiatingDaemon s ≠ .done s1 (.ok (some hdr)) := by
  unfold stepNegotiatingDaemon
  split
  · dsimp only
    split <;> simp
  · simp

/-- If the `ReadingHeader` arm returns a message (a zero-length known
message), the resulting state is `ReadingHeader`. -/
theorem stepReadingHeader_message_state (s s1 : RawMessageStream) (hdr : Header)
    (h : stepReadingHeader s = .done s1 (.ok (some hdr))) : s1.state = .ReadingHeader := by
  unfold stepReadingHeader at h
  by_cases hr : s.vchan.dataReady < 12
  · rw [if_pos hr] at h
    simp at h
  · rw [if_neg hr] at h
    dsimp only at h
    split at h <;>
      first
        | simp at h
        | (split_ifs at h <;> first | (cases h; rfl) | simp at h)

/-- If the `ReadingBody` arm returns a message (a completed body), the
resulting state is `ReadingHeader`. -/
theorem stepReadingBody_message_state (s s1 : RawMessageStream) (h0 hdr : Header)
    (h : stepReadingBody s h0 = .done s1 (.ok (some hdr))) : s1.state = .ReadingHeader := by
  unfold stepReadingBody at h
  dsimp only at h
  split_ifs at h
  · cases h
    rfl
  · simp at h

/-- If one loop iteration returns a message, the resulting state is
`ReadingHeader`. -/
theorem loopBody_message_state (s s1 : RawMessageStream) (hdr : Header)
    (h : loopBody s = .done s1 (.ok (some hdr))) : s1.state = .ReadingHeader := by
  unfold loopBody at h
  cases hst : s.state <;> rw [hst] at h <;> dsimp only at h
  case Connecting => exact absurd h (stepConnecting_no_message s s1 hdr)
  case Negotiating =>
    cases hk : s.kind <;> rw [hk] at h <;> dsimp only at h
    case Agent => exact absurd h (stepNegotiatingAgent_no_message s s1 hdr)
    case Daemon => exact absurd h (stepNegotiatingDaemon_no_message s s1 hdr)
  case ReadingHeader => exact stepReadingHeader_message_state s s1 hdr h
  case ReadingBody h0 => exact stepReadingBody_message_state s s1 h0 hdr h
  case Discard n =>
    unfold stepDiscard at h
    dsimp only at h
    split_ifs at h <;> simp at h
  case Error => simp at h

/-- If the loop breaks with a message, the resulting state is
`ReadingHeader`, whatever the starting state and fuel. -/
theorem runLoop_message_state :
    ∀ (fuel : Nat) (s s1 : RawMessageStream) (hdr : Header),
      runLoop fuel s = some (s1, .ok (some hdr)) → s1.state = .ReadingHeader := by
  intro fuel
  induction fuel with
  | zero => intro s s1 hdr h; simp [runLoop] at h
  | succ k ih =>
    intro s s1 hdr h
    unfold runLoop at h
    cases hl : loopBody s with
    | cont s2 =>
      rw [hl] at h
      dsimp only at h
      exact ih s2 s1 hdr h
    | done s2 r =>
      rw [hl] at h
      dsimp only at h
      simp at h
      obtain ⟨h1, h2⟩ := h
      exact h1 ▸ loopBody_message_state s s2 hdr (by rw [hl, h2])

/-- C7 (confirmed): Whenever `read_message` returns a message to the
caller — both for a zero-length known message delivered immediately on
header completion (with the read buffer just cleared, hence empty) and for
a message whose body has just been completed in `ReadingBody` — the
stream's state afterwards is exactly `ReadingHeader`. -/
theorem message_return_state_reading_header (fuel : Nat) (s s1 : RawMessageStream)
    (hdr : Header) (h : read_message fuel s = some (s1, .ok (some hdr))) :
    s1.state = .ReadingHeader := by
  unfold read_message at h
  cases hi : read_message_internal fuel s with
  | none => rw [hi] at h; simp at h
  | some p =>
    obtain ⟨s2, r⟩ := p
    rw [hi] at h
    cases r with
    | ok o =>
      dsimp only at h
      simp at h
      obtain ⟨h1, h2⟩ := h
      unfold read_message_internal at hi
      rw [h2] at hi
      exact h1 ▸ runLoop_message_state fuel _ s2 hdr hi
    | error e =>
      dsimp only at h
      simp at h

/-- C7 (witness): The zero-length DESTROY message is returned and the
stream is back in `ReadingHeader`. -/
theorem message_return_state_reading_header_witness :
    ({readyDestroy with vchan := {readyDestroy.vchan with input := []}} :
        RawMessageStream).state = ReadState.ReadingHeader :=
  message_return_state_reading_header 2 readyDestroy
    {readyDestroy with vchan := {readyDestroy.vchan with input := []}} ⟨⟨131, 5, 0⟩⟩ rfl

/-! ## C5: agent-side version negotiation -/

/-- Model of `flush_pending_writes` is the identity on a stream with an empty send
queue. -/
theorem flush_empty_queue (s : RawMessageStream) (hq : s.queue = []) :
    (flush_pending_writes s).1 = s := by
  obtain ⟨⟨i, se, sp, st⟩, q, rs, b, dr, x, dom, kd⟩ := s
  simp only at hq
  subst hq
  simp [flush_pending_writes, MVchan.send]

/-- C5 (confirmed): An agent-role stream in `Negotiating` with at least
20 bytes available reads an `XConfVersion` and accepts it iff
`daemon_major = version >> 16` equals the local major (1), and
`daemon_minor = version & 0xFFFF` is at most the local minor (7), and
`daemon_minor ≥ 4`.  On acceptance it stores the received `XConfVersion`,
moves to `ReadingHeader` and latches the reconnect flag true; on rejection
the read fails with an error carrying both versions and the stream is left
in the `Error` state. -/
theorem agent_negotiation_accepts_iff (s : RawMessageStream)
    (hk : s.kind = .Agent) (hs : s.state = .Negotiating) (hq : s.queue = [])
    (hr : 20 ≤ s.vchan.input.length) :
    ((decodeXConfVersion (s.vchan.input.take 20)).version / 65536 = 1 ∧
       (decodeXConfVersion (s.vchan.input.take 20)).version % 65536 ≤ 7 ∧
       4 ≤ (decodeXConfVersion (s.vchan.input.take 20)).version % 65536 →
      loopBody s = .cont {s with
        vchan := {s.vchan with input := s.vchan.input.drop 20},
        xconf := decodeXConfVersion (s.vchan.input.take 20),
        state := .ReadingHeader, did_reconnect := true}) ∧
    (¬ ((decodeXConfVersion (s.vchan.input.take 20)).version / 65536 = 1 ∧
        (decodeXConfVersion (s.vchan.input.take 20)).version % 65536 ≤ 7 ∧
        4 ≤ (decodeXConfVersion (s.vchan.input.take 20)).version % 65536) →
      ∀ fuel, read_message (fuel + 1) s =
        some ({s with vchan := {s.vchan with input := s.vchan.input.drop 20},
                      state := .Error},
          .error (.versionMismatch
            ((decodeXConfVersion (s.vchan.input.take 20)).version / 65536)
            ((decodeXConfVersion (s.vchan.input.take 20)).version % 65536) 1 7))) := by
  have hready : 20 ≤ s.vchan.dataReady := hr
  constructor
  · intro hc
    have hcond : PROTOCOL_VERSION_MAJOR =
          (decodeXConfVersion (s.vchan.input.take 20)).version / 65536 ∧
        (decodeXConfVersion (s.vchan.input.take 20)).version % 65536 ≤
          PROTOCOL_VERSION_MINOR ∧
        4 ≤ (decodeXConfVersion (s.vchan.input.take 20)).version % 65536 :=
      ⟨hc.1.symm, hc.2.1, hc.2.2⟩
    simp only [loopBody, hs, hk]
    unfold stepNegotiatingAgent
    rw [if_pos hready]
    dsimp only [MVchan.recv]
    rw [if_pos hcond]
    simp [hk]
  · intro hc fuel
    have hcond : ¬ (PROTOCOL_VERSION_MAJOR =
          (decodeXConfVersion (s.vchan.input.take 20)).version / 65536 ∧
        (decodeXConfVersion (s.vchan.input.take 20)).version % 65536 ≤
          PROTOCOL_VERSION_MINOR ∧
        4 ≤ (decodeXConfVersion (s.vchan.input.take 20)).version % 65536) :=
      fun hcc => hc ⟨hcc.1.symm, hcc.2.1, hcc.2.2⟩
    unfold read_message read_message_internal
    rw [flush_empty_queue s hq]
    simp only [runLoop, loopBody, hs, hk]
    unfold stepNegotiatingAgent
    rw [if_pos hready]
    dsimp only [MVchan.recv]
    rw [if_neg hcond]
    dsimp only
    simp [hk]
    exact ⟨rfl, rfl⟩

/-- C5 (witness): The agent accepts a daemon `XConfVersion` carrying
version `0x00010007`, stores it, moves to `ReadingHeader` and sets the
reconnect flag. -/
theorem agent_negotiation_accepts_iff_witness :
    loopBody agentNeg = .cont {agentNeg with
      vchan := {agentNeg.vchan with input := agentNeg.vchan.input.drop 20},
      xconf := decodeXConfVersion (agentNeg.vchan.input.take 20),
      state := .ReadingHeader, did_reconnect := true} :=
  (agent_negotiation_accepts_iff agentNeg rfl rfl rfl (by decide)).1 (by decide)

/-! ## C6: send-side FIFO and message atomicity

The observable send-side contents of a stream: the bytes already delivered
to the transport followed by the bytes still queued.  `write` appends to
this quantity; `flush_pending_writes` and reads (in connected states) only
move bytes from the queue part to the delivered part, never reordering,
dropping or interleaving. -/

/-- Bytes delivered to the transport followed by the still-queued bytes. -/
def sendSide (s : RawMessageStream) : List Nat := s.vchan.sent ++ s.queue

/-- The stream carried by a loop step (whether it continues or breaks). -/
def LoopStep.stream : LoopStep → RawMessageStream
  | .cont s => s
  | .done s _ => s

/-- An operation driving a connected stream: enqueue a framed message
(`Connection::send_raw`), try to read one message, or let the peer free
transport buffer space. -/
inductive Op where
  | sendMsg (ty window : Nat) (body : List Nat)
  | readMsg (fuel : Nat)
  | grantSpace (n : Nat)

/-- The bytes an operation is expected to contribute to the wire: a
`sendMsg` contributes its 12-byte header followed by its body, the other
operations contribute nothing. -/
def Op.bytes : Op → List Nat
  | .sendMsg ty window body => (UntrustedHeader.mk ty window body.length).as_bytes ++ body
  | .readMsg _ => []
  | .grantSpace _ => []

/-- Concatenation of the expected wire bytes of a sequence of operations,
in call order. -/
def opsBytes : List Op → List Nat
  | [] => []
  | op :: ops => op.bytes ++ opsBytes ops

/-- Run a sequence of operations.  The scenario of claim C6 is a stream
that stays connected: a `sendMsg` is only meaningful in a writable state
(before the handshake or after an error the reference silently drops
writes), a send of an unknown kind panics in the source (`none` here), and
a read that fails (or exhausts its fuel) ends the scenario. -/
def runOps : RawMessageStream → List Op → Option RawMessageStream
  | s, [] => some s
  | s, .sendMsg ty window body :: ops =>
    if writableState s.state then
      match send_raw s body window ty with
      | some s1 => runOps s1 ops
      | none => none
    else none
  | s, .readMsg fuel :: ops =>
    match read_message fuel s with
    | some (s1, .ok _) => runOps s1 ops
    | _ => none
  | s, .grantSpace n :: ops => runOps {s with vchan := {s.vchan with space := n}} ops

/-- Flushing moves bytes from the queue to the transport: the send-side
contents are conserved. -/
theorem flush_pending_writes_sendSide (s : RawMessageStream) :
    sendSide (flush_pending_writes s).1 = sendSide s := by
  simp only [sendSide, flush_pending_writes, MVchan.send]
  rw [List.append_assoc, List.take_append_drop]

/-- Model of `write` in a writable state appends exactly its argument to the
send-side contents and leaves the read state unchanged. -/
theorem write_sendSide (s : RawMessageStream) (buf : List Nat)
    (hw : writableState s.state = true) :
    sendSide (write s buf) = sendSide s ++ buf ∧ (write s buf).state = s.state := by
  cases hst : s.state
  case Error => rw [hst] at hw; simp [writableState] at hw
  case Connecting => rw [hst] at hw; simp [writableState] at hw
  case Negotiating => rw [hst] at hw; simp [writableState] at hw
  all_goals
    rw [show sendSide s = sendSide (flush_pending_writes s).1 from
      (flush_pending_writes_sendSide s).symm]
    simp only [write, hst]
    try dsimp only
    split_ifs with hq
    · refine ⟨?_, hst⟩
      have hqnil : (flush_pending_writes s).1.queue = [] := by
        simpa [List.isEmpty_iff] using hq
      simp [sendSide, MVchan.send, hqnil, List.append_assoc, List.take_append_drop]
    · exact ⟨by simp [sendSide, List.append_assoc], hst⟩

/-- One loop iteration from a writable state conserves the send-side
contents and stays in a writable state (the handshake states, which push
bytes of their own, are unreachable from the framing states). -/
theorem loopBody_sendSide_writable (s : RawMessageStream)
    (hw : writableState s.state = true) :
    sendSide (loopBody s).stream = sendSide s ∧
    writableState (loopBody s).stream.state = true := by
  cases hst : s.state
  case Connecting => rw [hst] at hw; simp [writableState] at hw
  case Negotiating => rw [hst] at hw; simp [writableState] at hw
  case Error => rw [hst] at hw; simp [writableState] at hw
  case ReadingHeader =>
    simp only [loopBody, hst]
    unfold stepReadingHeader
    split_ifs with h12
    · exact ⟨rfl, hw⟩
    · dsimp only
      split
      · exact ⟨rfl, hw⟩
      · split_ifs <;> exact ⟨rfl, rfl⟩
      · split_ifs <;> exact ⟨rfl, rfl⟩
  case Discard n =>
    simp only [loopBody, hst]
    unfold stepDiscard
    dsimp only
    split_ifs <;> exact ⟨rfl, rfl⟩
  case ReadingBody h0 =>
    simp only [loopBody, hst]
    unfold stepReadingBody
    dsimp only
    split_ifs
    · exact ⟨rfl, rfl⟩
    · exact ⟨rfl, hw⟩

/-- The loop, run from a writable state until it breaks without error,
conserves the send-side contents and ends in a writable state. -/
theorem runLoop_sendSide (fuel : Nat) :
    ∀ (s s1 : RawMessageStream) (r : Option Header),
      writableState s.state = true → runLoop fuel s = some (s1, .ok r) →
      sendSide s1 = sendSide s ∧ writableState s1.state = true := by
  induction fuel with
  | zero => intro s s1 r hw h; simp [runLoop] at h
  | succ k ih =>
    intro s s1 r hw h
    unfold runLoop at h
    cases hl : loopBody s with
    | cont s2 =>
      rw [hl] at h
      dsimp only at h
      have hstep := loopBody_sendSide_writable s hw
      rw [hl] at hstep
      dsimp only [LoopStep.stream] at hstep
      obtain ⟨he, hw2⟩ := hstep
      obtain ⟨he2, hw3⟩ := ih s2 s1 r hw2 h
      exact ⟨he2.trans he, hw3⟩
    | done s2 r2 =>
      rw [hl] at h
      dsimp only at h
      simp at h
      obtain ⟨h1, h2⟩ := h
      have hstep := loopBody_sendSide_writable s hw
      rw [hl] at hstep
      dsimp only [LoopStep.stream] at hstep
      exact h1 ▸ hstep

/-- A successful (non-erroring) `read_message` from a writable state
conserves the send-side contents and stays writable. -/
theorem read_message_sendSide (fuel : Nat) (s s1 : RawMessageStream)
    (r : Option Header) (hw : writableState s.state = true)
    (h : read_message fuel s = some (s1, .ok r)) :
    sendSide s1 = sendSide s ∧ writableState s1.state = true := by
  unfold read_message at h
  cases hi : read_message_internal fuel s with
  | none => rw [hi] at h; simp at h
  | some p =>
    obtain ⟨s2, r2⟩ := p
    rw [hi] at h
    cases r2 with
    | ok o =>
      dsimp only at h
      simp at h
      obtain ⟨h1, h2⟩ := h
      unfold read_message_internal at hi
      have hwf : writableState (flush_pending_writes s).1.state = true := hw
      have hrun := runLoop_sendSide fuel _ s2 o hwf hi
      rw [flush_pending_writes_sendSide s] at hrun
      exact h1 ▸ hrun
    | error e =>
      dsimp only at h
      simp at h

/-- Model of `Connection::send_raw` on a writable stream appends exactly the
12-byte header followed by the body to the send-side contents. -/
theorem send_raw_sendSide (s s1 : RawMessageStream) (body : List Nat) (window ty : Nat)
    (hw : writableState s.state = true) (h : send_raw s body window ty = some s1) :
    sendSide s1 = sendSide s ++ ((UntrustedHeader.mk ty window body.length).as_bytes ++ body) ∧
    writableState s1.state = true := by
  unfold send_raw at h
  split_ifs at h with hlen
  dsimp only at h
  cases hv : validate_length ⟨ty, window, body.length⟩ with
  | ok o =>
    cases o with
    | some hh =>
      rw [hv] at h
      dsimp only at h
      simp at h
      obtain ⟨hd1, hd2⟩ := write_sendSide s
        (UntrustedHeader.mk ty window body.length).as_bytes hw
      have hw1 : writableState
          (write s (UntrustedHeader.mk ty window body.length).as_bytes).state = true := by
        rw [hd2]; exact hw
      obtain ⟨hb1, hb2⟩ := write_sendSide
        (write s (UntrustedHeader.mk ty window body.length).as_bytes) body hw1
      refine h ▸ ⟨?_, ?_⟩
      · rw [hb1, hd1, List.append_assoc]
      · rw [hb2]; exact hw1
    | none =>
      rw [hv] at h
      dsimp only at h
      simp at h
  | error e =>
    rw [hv] at h
    dsimp only at h
    simp at h

/-- C6 (confirmed): For any sequence of `send(kind, window, body)`
calls on a connected (writable-state) stream, interleaved with any
sequence of successful reads and any evolution of the transport's free
buffer space, the send-side byte stream — bytes delivered to the transport
followed by bytes still queued, `sendSide` — grows by exactly the
concatenation of (12-byte header ++ body) for each call, in call order:
no reordering, no interleaving, no splitting of one message's bytes by
another's.  In particular, once the queue has fully drained, the bytes
delivered to the transport are exactly the initial send-side contents
followed by that concatenation. -/
theorem send_fifo_atomicity :
    ∀ (ops : List Op) (s s1 : RawMessageStream), writableState s.state = true →
      runOps s ops = some s1 →
      sendSide s1 = sendSide s ++ opsBytes ops ∧
      (s1.queue = [] → s1.vchan.sent = sendSide s ++ opsBytes ops) := by
  have main : ∀ (ops : List Op) (s s1 : RawMessageStream), writableState s.state = true →
      runOps s ops = some s1 → sendSide s1 = sendSide s ++ opsBytes ops := by
    intro ops
    induction ops with
    | nil =>
      intro s s1 hw h
      simp [runOps] at h
      subst h
      simp [opsBytes]
    | cons op ops ih =>
      intro s s1 hw h
      cases op with
      | sendMsg ty window body =>
        unfold runOps at h
        rw [if_pos hw] at h
        cases hsr : send_raw s body window ty with
        | some s2 =>
          rw [hsr] at h
          dsimp only at h
          obtain ⟨hsend, hw2⟩ := send_raw_sendSide s s2 body window ty hw hsr
          rw [ih s2 s1 hw2 h, hsend, opsBytes, Op.bytes, List.append_assoc]
        | none =>
          rw [hsr] at h
          dsimp only at h
          simp at h
      | readMsg fuel =>
        unfold runOps at h
        cases hrm : read_message fuel s with
        | none =>
          rw [hrm] at h
          dsimp only at h
          simp at h
        | some p =>
          obtain ⟨s2, r2⟩ := p
          rw [hrm] at h
          cases r2 with
          | ok o =>
            dsimp only at h
            obtain ⟨hread, hw2⟩ := read_message_sendSide fuel s s2 o hw hrm
            rw [ih s2 s1 hw2 h, hread, opsBytes, Op.bytes, List.nil_append]
          | error e =>
            dsimp only at h
            simp at h
      | grantSpace n =>
        unfold runOps at h
        have hw2 : writableState ({s with vchan := {s.vchan with space := n}} :
            RawMessageStream).state = true := hw
        rw [ih _ s1 hw2 h, opsBytes, Op.bytes, List.nil_append]
        rfl
  intro ops s s1 hw h
  refine ⟨main ops s s1 hw h, fun hq => ?_⟩
  have := main ops s s1 hw h
  rw [sendSide, hq, List.append_nil] at this
  exact this

/-- C6 (witness): A DESTROY message sent against 5 bytes of transport
space (splitting the header), a space grant, a read that flushes the rest,
and a CURSOR message with a 4-byte body: the send side holds exactly the
two framed messages in call order. -/
theorem send_fifo_atomicity_witness :
    ∃ s1, runOps readyDestroy
        [.sendMsg 131 6 [], .grantSpace 100, .readMsg 1, .sendMsg 148 2 [9, 0, 0, 0]]
        = some s1 ∧
      sendSide s1 = sendSide readyDestroy ++ opsBytes
        [.sendMsg 131 6 [], .grantSpace 100, .readMsg 1, .sendMsg 148 2 [9, 0, 0, 0]] :=
  ⟨_, rfl, (send_fifo_atomicity
    [.sendMsg 131 6 [], .grantSpace 100, .readMsg 1, .sendMsg 148 2 [9, 0, 0, 0]]
    readyDestroy _ rfl rfl).1⟩

end QubesGui
